import Mathlib

/-! Shallow embedding of the two release-automation scripts of the zagel
repository, scripts/release_checksums.py and scripts/release_packaging.py,
together with theorems settling the specification's claims about them.
Python strings are modelled as Lean String values, and the string operations
the scripts use (startswith, endswith, slicing) are defined over the
underlying character list with Python semantics.  File contents are byte
lists (List Nat with entries below 256).  Filesystem effects are explicit:
each script's main is a function from its inputs to either an error (a
raised exception) or the data it writes. -/

namespace Zagel

set_option maxRecDepth 8192

/-- Splits a list into consecutive chunks of the given size, in order; the
result is empty when the size is zero (mirroring a read loop in which
read(0) yields an empty buffer at once and the loop stops). -/
def chunksOf {α : Type} (size : Nat) (l : List α) : List (List α) :=
  if _h : size = 0 ∨ l.length = 0 then []
  else l.take size :: chunksOf size (l.drop size)
termination_by l.length
decreasing_by
  simp only [List.length_drop]
  omega

/-- Lowercase hexadecimal digit characters, in value order. -/
def hexDigits : List Char := "0123456789abcdef".data

/-- Hexadecimal digit character for a number, taken modulo 16. -/
def hexDigit (n : Nat) : Char := hexDigits.getD (n % 16) '0'

/-- Two lowercase hexadecimal characters denoting a byte. -/
def byteHex (b : Nat) : List Char := [hexDigit (b / 16), hexDigit b]

/-- Big-endian byte expansion of a number into the given count of bytes. -/
def beBytes (count n : Nat) : List Nat :=
  (List.range count).map (fun i => n >>> (8 * (count - 1 - i)) % 256)

/-- Rotation of a 32-bit word to the right by n places. -/
def rotr32 (n x : Nat) : Nat := ((x >>> n) ||| (x <<< (32 - n))) % 4294967296

/-- SHA-256 small sigma 0. -/
def ssig0 (x : Nat) : Nat := rotr32 7 x ^^^ rotr32 18 x ^^^ (x >>> 3)

/-- SHA-256 small sigma 1. -/
def ssig1 (x : Nat) : Nat := rotr32 17 x ^^^ rotr32 19 x ^^^ (x >>> 10)

/-- SHA-256 big sigma 0. -/
def bsig0 (x : Nat) : Nat := rotr32 2 x ^^^ rotr32 13 x ^^^ rotr32 22 x

/-- SHA-256 big sigma 1. -/
def bsig1 (x : Nat) : Nat := rotr32 6 x ^^^ rotr32 11 x ^^^ rotr32 25 x

/-- SHA-256 choice function. -/
def chWord (x y z : Nat) : Nat := (x &&& y) ^^^ ((x ^^^ 4294967295) &&& z)

/-- SHA-256 majority function. -/
def majWord (x y z : Nat) : Nat := (x &&& y) ^^^ (x &&& z) ^^^ (y &&& z)

/-- The 64 round constants of SHA-256 (FIPS 180-4), written in decimal. -/
def sha256K : List Nat :=
  [1116352408, 1899447441, 3049323471, 3921009573, 961987163,
   1508970993, 2453635748, 2870763221, 3624381080, 310598401,
   607225278, 1426881987, 1925078388, 2162078206, 2614888103,
   3248222580, 3835390401, 4022224774, 264347078, 604807628,
   770255983, 1249150122, 1555081692, 1996064986, 2554220882,
   2821834349, 2952996808, 3210313671, 3336571891, 3584528711,
   113926993, 338241895, 666307205, 773529912, 1294757372,
   1396182291, 1695183700, 1986661051, 2177026350, 2456956037,
   2730485921, 2820302411, 3259730800, 3345764771, 3516065817,
   3600352804, 4094571909, 275423344, 430227734, 506948616,
   659060556, 883997877, 958139571, 1322822218, 1537002063,
   1747873779, 1955562222, 2024104815, 2227730452, 2361852424,
   2428436474, 2756734187, 3204031479, 3329325298]

/-- Running hash state of SHA-256: eight 32-bit words. -/
structure Hash8 where
  w0 : Nat
  w1 : Nat
  w2 : Nat
  w3 : Nat
  w4 : Nat
  w5 : Nat
  w6 : Nat
  w7 : Nat
deriving DecidableEq

/-- The initial hash state of SHA-256, in decimal. -/
def sha256Init : Hash8 :=
  ⟨1779033703, 3144134277, 1013904242, 2773480762,
   1359893119, 2600822924, 528734635, 1541459225⟩

/-- Appends the next word of the SHA-256 message schedule. -/
def scheduleStep (w : List Nat) : List Nat :=
  w ++ [(w.getD (w.length - 16) 0 + ssig0 (w.getD (w.length - 15) 0) +
         w.getD (w.length - 7) 0 + ssig1 (w.getD (w.length - 2) 0)) % 4294967296]

/-- Extends a 16-word block to the 64-word SHA-256 message schedule. -/
def sha256Schedule (block : List Nat) : List Nat :=
  (List.range 48).foldl (fun w _ => scheduleStep w) block

/-- One SHA-256 compression round on the working variables. -/
def sha256Round (st : Hash8) (wk : Nat × Nat) : Hash8 :=
  let t1 := (st.w7 + bsig1 st.w4 + chWord st.w4 st.w5 st.w6 + wk.2 + wk.1) % 4294967296
  let t2 := (bsig0 st.w0 + majWord st.w0 st.w1 st.w2) % 4294967296
  ⟨(t1 + t2) % 4294967296, st.w0, st.w1, st.w2,
   (st.w3 + t1) % 4294967296, st.w4, st.w5, st.w6⟩

/-- SHA-256 compression of one 16-word block into the hash state. -/
def sha256Compress (st : Hash8) (block : List Nat) : Hash8 :=
  let r := ((sha256Schedule block).zip sha256K).foldl sha256Round st
  ⟨(st.w0 + r.w0) % 4294967296, (st.w1 + r.w1) % 4294967296,
   (st.w2 + r.w2) % 4294967296, (st.w3 + r.w3) % 4294967296,
   (st.w4 + r.w4) % 4294967296, (st.w5 + r.w5) % 4294967296,
   (st.w6 + r.w6) % 4294967296, (st.w7 + r.w7) % 4294967296⟩

/-- SHA-256 padding: a 0x80 byte, zeros up to 56 modulo 64, then the bit
length in eight big-endian bytes. -/
def sha256Pad (msg : List Nat) : List Nat :=
  msg ++ 128 :: List.replicate ((119 - msg.length % 64) % 64) 0 ++
    beBytes 8 (8 * msg.length % 18446744073709551616)

/-- Packs bytes into 32-bit big-endian words. -/
def bytesToWords (bytes : List Nat) : List Nat :=
  (chunksOf 4 bytes).map (fun b => b.foldl (fun acc x => acc * 256 + x) 0)

/-- SHA-256 of a byte list, as the final eight-word hash state. -/
def sha256Words (msg : List Nat) : Hash8 :=
  (chunksOf 16 (bytesToWords (sha256Pad msg))).foldl sha256Compress sha256Init

/-- SHA-256 digest bytes (32 of them) of a byte list. -/
def sha256Bytes (msg : List Nat) : List Nat :=
  let h := sha256Words msg
  [h.w0, h.w1, h.w2, h.w3, h.w4, h.w5, h.w6, h.w7].flatMap (beBytes 4)

/-- Lowercase hexadecimal SHA-256 digest of a byte list; this models
hashlib.sha256(data).hexdigest(). -/
def sha256Hex (msg : List Nat) : String :=
  ⟨(sha256Bytes msg).flatMap byteHex⟩

/-! Python string primitives, over the character list of a String. -/

/-- Python str.startswith: the second string heads the first. -/
def startswith (s pre : String) : Bool := pre.data.isPrefixOf s.data

/-- Python str.endswith: the second string ends the first. -/
def endswith (s suf : String) : Bool := suf.data.isSuffixOf s.data

/-- Python slicing s[n:]. -/
def strDrop (s : String) (n : Nat) : String := ⟨s.data.drop n⟩

/-- Python pathlib Path.name, modelled as the part after the last slash. -/
def pathName (p : String) : String :=
  ⟨p.data.foldl (fun acc c => if c = '/' then [] else acc ++ [c]) []⟩

/-! Embedding of scripts/release_checksums.py.  The input directory is a
listing of entries, each with a name, a regular-file flag (file.is_file())
and a byte content; the filesystem written to is a list of path-content
pairs. -/

/-- Entry of the input directory listing of the checksum generator. -/
structure DirEntry where
  name : String
  isFile : Bool
  content : List Nat
deriving DecidableEq

/-- Incremental hashing state of hashlib.sha256(): semantically, the bytes
absorbed so far; hasher.update appends to them. -/
def hasherUpdate (ctx chunk : List Nat) : List Nat := ctx ++ chunk

/-- hasher.hexdigest() on an incremental hashing state. -/
def hasherHexdigest (ctx : List Nat) : String := sha256Hex ctx

/-- Chunked digest computation with a given read size: the read loop
iter(lambda: handle.read(size), b"") absorbed chunk by chunk. -/
def sha256ChunkedHex (size : Nat) (content : List Nat) : String :=
  hasherHexdigest ((chunksOf size content).foldl hasherUpdate [])

/-- Embeds sha256_for_file (release_checksums.py lines 15-20): the file is
read in chunks of 1024 * 1024 bytes, each fed to hasher.update, and the
final hexdigest is returned. -/
def sha256_for_file (content : List Nat) : String :=
  sha256ChunkedHex 1048576 content

/-- Regular files of the listing other than the output file (by name):
the comprehension in release_checksums.py lines 47-54 before sorting. -/
def regularFiles (entries : List DirEntry) (outName : String) : List DirEntry :=
  entries.filter (fun e => e.isFile && e.name != outName)

/-- Ordering key used by sorted(..., key=lambda file: file.name). -/
def byName (a b : DirEntry) : Bool := decide (a.name ≤ b.name)

/-- One manifest line: digest, two spaces, filename. -/
def checksumLine (e : DirEntry) : String :=
  sha256_for_file e.content ++ "  " ++ e.name

/-- Embeds main of release_checksums.py (lines 39-61) up to the write: the
result is the manifest text written to the output path, or the raised
error.  dist_dir is the directory path (used in error messages),
distDirExists and distIsDir model dist_dir.exists() and dist_dir.is_dir(),
entries the directory listing, and outName output_path.name. -/
def checksumsRun (dist_dir : String) (distDirExists distIsDir : Bool)
    (entries : List DirEntry) (outName : String) : Except String String :=
  if !distDirExists || !distIsDir then
    .error ("dist directory does not exist: " ++ dist_dir)
  else
    let files := (regularFiles entries outName).mergeSort byName
    if files.isEmpty then .error ("no release artifacts found in " ++ dist_dir)
    else .ok (String.intercalate "\n" (files.map checksumLine) ++ "\n")

/-- Path.write_text: creates the file at the path or overwrites an existing
one, on a filesystem modelled as path-content pairs. -/
def writeText (fs : List (String × String)) (path content : String) :
    List (String × String) :=
  fs.filter (fun e => e.1 != path) ++ [(path, content)]

/-- Reads a path on the modelled filesystem. -/
def fsRead (fs : List (String × String)) (path : String) : Option String :=
  (fs.find? (fun e => e.1 == path)).map (fun e => e.2)

/-- Embeds main of release_checksums.py including its single write: on
success the returned filesystem has the manifest text at out_path. -/
def checksumsMain (dist_dir : String) (distDirExists distIsDir : Bool)
    (entries : List DirEntry) (out_path : String)
    (fs : List (String × String)) : Except String (List (String × String)) := do
  let text ← checksumsRun dist_dir distDirExists distIsDir entries (pathName out_path)
  pure (writeText fs out_path text)

/-! Embedding of scripts/release_packaging.py.  The release JSON document
and Cargo.toml are modelled structurally, as already-parsed values (JSON
and TOML text parsing is outside the scripts' own code).  The script's
f-string templates are written with textwrap.dedent around literals whose
non-blank lines all carry a uniform eight-space indentation; the builders
below carry the dedented text directly, which coincides with the source
behaviour whenever the interpolated values contain no newline (a newline
inside a value would change the dedent margin computed at run time). -/

/-- Release asset record of release_packaging.py (lines 21-25). -/
structure ReleaseAsset where
  name : String
  url : String
  sha256 : String
deriving DecidableEq

/-- One element of the assets array of the release JSON document; digest is
optional, asset.get("digest", "") supplying the empty default. -/
structure AssetJson where
  name : String
  url : String
  digest : Option String
deriving DecidableEq

/-- The release JSON document: a tag name and an asset list. -/
structure ReleaseJson where
  tagName : String
  assets : List AssetJson
deriving DecidableEq

/-- Parsed Cargo.toml: its package table, when present, as key-value
pairs. -/
structure CargoToml where
  package : Option (List (String × String))
deriving DecidableEq

/-- Project metadata returned by read_cargo_metadata. -/
structure Metadata where
  name : String
  description : String
  license : String
  repository : String
deriving DecidableEq

/-- Key lookup in a parsed TOML table. -/
def lookupKey (tbl : List (String × String)) (k : String) : Option String :=
  (tbl.find? (fun e => e.1 == k)).map (fun e => e.2)

/-- Embeds read_cargo_metadata (lines 45-57): fails when Cargo.toml is
absent, when it lacks a package table, or when one of the four required
fields is missing (an uncaught KeyError in the source; the exact Python
rendering of a KeyError message is not modelled). -/
def read_cargo_metadata (cargo_toml : Option CargoToml) : Except String Metadata :=
  match cargo_toml with
  | none => .error "could not find Cargo.toml"
  | some doc =>
    match doc.package with
    | none => .error "KeyError: package"
    | some package =>
      match lookupKey package "name", lookupKey package "description",
            lookupKey package "license", lookupKey package "repository" with
      | some n, some d, some l, some r => .ok ⟨n, d, l, r⟩
      | _, _, _, _ => .error "KeyError: missing package field"

/-- Embeds parse_sha256 (lines 60-64): strips the 7-character sha256:
marker, or fails with an error naming the asset. -/
def parse_sha256 (digest asset_name : String) : Except String String :=
  if startswith digest "sha256:" then .ok (strDrop digest 7)
  else .error ("asset " ++ asset_name ++ " is missing a sha256 digest")

/-- Element-wise asset construction of load_assets (lines 70-77), in list
order, aborting at the first failing digest. -/
def loadAssetList : List AssetJson → Except String (List ReleaseAsset)
  | [] => .ok []
  | asset :: rest => do
    let sha ← parse_sha256 (asset.digest.getD "") asset.name
    let tail ← loadAssetList rest
    pure (⟨asset.name, asset.url, sha⟩ :: tail)

/-- Embeds load_assets (lines 67-78). -/
def load_assets (payload : ReleaseJson) : Except String (String × List ReleaseAsset) := do
  let assets ← loadAssetList payload.assets
  pure (payload.tagName, assets)

/-- Embeds find_asset (lines 81-87): zero matches of the name ending is a
not-found error, two or more an ambiguity error, and a unique match is
returned. -/
def find_asset (assets : List ReleaseAsset) (expected_suffix : String) :
    Except String ReleaseAsset :=
  match assets.filter (fun a => endswith a.name expected_suffix) with
  | [] => .error ("could not find release asset ending in \x27" ++ expected_suffix ++ "\x27")
  | [a] => .ok a
  | _ :: _ :: _ =>
    .error ("found multiple assets ending in \x27" ++ expected_suffix ++ "\x27")

/-- Version derivation of main (line 329): tag[1:] when the tag starts with
v, the tag itself otherwise. -/
def deriveVersion (tag : String) : String :=
  if startswith tag "v" then strDrop tag 1 else tag

/-- Four lowercase hexadecimal digits of a number below 65536. -/
def hex4 (n : Nat) : List Char :=
  [hexDigit (n / 4096), hexDigit (n / 256), hexDigit (n / 16), hexDigit n]

/-- Escape of one character inside a JSON string literal as json.dumps
emits it with its defaults (ensure_ascii): quote and backslash get a
backslash, the usual control short forms apply, and any other character
outside printable ASCII becomes a four-digit escape (a surrogate pair
above the basic plane). -/
def jsonEscapeChar (c : Char) : List Char :=
  if c = '"' then ['\\', '"']
  else if c = '\\' then ['\\', '\\']
  else if c.toNat = 8 then ['\\', 'b']
  else if c.toNat = 9 then ['\\', 't']
  else if c.toNat = 10 then ['\\', 'n']
  else if c.toNat = 12 then ['\\', 'f']
  else if c.toNat = 13 then ['\\', 'r']
  else if c.toNat < 32 ∨ 126 < c.toNat then
    if c.toNat < 65536 then '\\' :: 'u' :: hex4 c.toNat
    else ('\\' :: 'u' :: hex4 (55296 + (c.toNat - 65536) / 1024)) ++
         ('\\' :: 'u' :: hex4 (56320 + (c.toNat - 65536) % 1024))
  else [c]

/-- JSON string escaping applied by json.dumps to every interpolated string
value of the scoop manifest. -/
def jsonEscape (s : String) : String := ⟨s.data.flatMap jsonEscapeChar⟩

/-- Embeds build_homebrew_formula (lines 95-140), post-dedent. -/
def build_homebrew_formula (version : String) (metadata : Metadata)
    (linux_asset mac_x64_asset mac_arm_asset : ReleaseAsset) : String :=
  "class Zagel < Formula\n  desc \"" ++ metadata.description ++
  "\"\n  homepage \"" ++ metadata.repository ++
  "\"\n  version \"" ++ version ++
  "\"\n  license \"" ++ metadata.license ++
  "\"\n\n  on_macos do\n    if Hardware::CPU.arm?\n      url \"" ++ mac_arm_asset.url ++
  "\"\n      sha256 \"" ++ mac_arm_asset.sha256 ++
  "\"\n    end\n\n    if Hardware::CPU.intel?\n      url \"" ++ mac_x64_asset.url ++
  "\"\n      sha256 \"" ++ mac_x64_asset.sha256 ++
  "\"\n    end\n  end\n\n  on_linux do\n    if Hardware::CPU.intel?\n      url \"" ++
  linux_asset.url ++
  "\"\n      sha256 \"" ++ linux_asset.sha256 ++
  "\"\n    else\n      odie \"zagel currently supports x86_64 Linux only\"\n    end\n  end\n\n  def install\n    bin.install \"zagel\"\n  end\n\n  test do\n    assert_predicate bin/\"zagel\", :exist?\n  end\nend\n"

/-- Embeds build_scoop_manifest (lines 143-172): the exact text of
json.dumps(manifest, indent=2) on the fixed-shape dict, keys in insertion
order, followed by one newline. -/
def build_scoop_manifest (version : String) (metadata : Metadata)
    (windows_asset : ReleaseAsset) : String :=
  "\x7b\n  \"version\": \"" ++ jsonEscape version ++
  "\",\n  \"description\": \"" ++ jsonEscape metadata.description ++
  "\",\n  \"homepage\": \"" ++ jsonEscape metadata.repository ++
  "\",\n  \"license\": \"" ++ jsonEscape metadata.license ++
  "\",\n  \"architecture\": \x7b\n    \"64bit\": \x7b\n      \"url\": \"" ++
  jsonEscape windows_asset.url ++
  "\",\n      \"hash\": \"" ++ jsonEscape windows_asset.sha256 ++
  "\"\n    \x7d\n  \x7d,\n  \"bin\": \"zagel.exe\",\n  \"checkver\": \"github\",\n  \"autoupdate\": \x7b\n    \"architecture\": \x7b\n      \"64bit\": \x7b\n        \"url\": \"" ++
  jsonEscape (metadata.repository ++
    "/releases/download/v$version/zagel-v$version-x86_64-pc-windows-msvc.zip") ++
  "\"\n      \x7d\n    \x7d\n  \x7d\n\x7d\n"

/-- Embeds build_winget_version_manifest (lines 175-184), post-dedent. -/
def build_winget_version_manifest (version : String) : String :=
  "PackageIdentifier: Sharno.Zagel\nPackageVersion: " ++ version ++
  "\nDefaultLocale: en-US\nManifestType: version\nManifestVersion: 1.9.0\n"

/-- Embeds build_winget_installer_manifest (lines 187-204), post-dedent. -/
def build_winget_installer_manifest (version : String)
    (windows_asset : ReleaseAsset) : String :=
  "PackageIdentifier: Sharno.Zagel\nPackageVersion: " ++ version ++
  "\nInstallers:\n  - Architecture: x64\n    InstallerType: zip\n    NestedInstallerType: portable\n    NestedInstallerFiles:\n      - RelativeFilePath: zagel.exe\n        PortableCommandAlias: zagel\n    InstallerUrl: " ++
  windows_asset.url ++
  "\n    InstallerSha256: " ++ windows_asset.sha256 ++
  "\nManifestType: installer\nManifestVersion: 1.9.0\n"

/-- Embeds build_winget_locale_manifest (lines 207-230), post-dedent. -/
def build_winget_locale_manifest (version : String) (metadata : Metadata) : String :=
  "PackageIdentifier: Sharno.Zagel\nPackageVersion: " ++ version ++
  "\nPackageLocale: en-US\nPublisher: sharno\nPublisherUrl: https://github.com/sharno\nPublisherSupportUrl: " ++
  metadata.repository ++
  "/issues\nAuthor: sharno\nPackageName: Zagel\nPackageUrl: " ++ metadata.repository ++
  "\nLicense: " ++ metadata.license ++
  "\nShortDescription: " ++ metadata.description ++
  "\nMoniker: zagel\nTags:\n  - rest\n  - http\n  - api\n  - client\nManifestType: defaultLocale\nManifestVersion: 1.9.0\n"

/-- Embeds build_choco_nuspec (lines 233-251), post-dedent. -/
def build_choco_nuspec (version : String) (metadata : Metadata) : String :=
  "<?xml version=\"1.0\"?>\n<package xmlns=\"http://schemas.microsoft.com/packaging/2015/06/nuspec.xsd\">\n  <metadata>\n    <id>zagel</id>\n    <version>" ++
  version ++
  "</version>\n    <title>Zagel</title>\n    <authors>sharno</authors>\n    <projectUrl>" ++
  metadata.repository ++
  "</projectUrl>\n    <license type=\"expression\">" ++ metadata.license ++
  "</license>\n    <requireLicenseAcceptance>false</requireLicenseAcceptance>\n    <description>" ++
  metadata.description ++
  "</description>\n    <tags>zagel rest http client gui</tags>\n  </metadata>\n</package>\n"

/-- Embeds build_choco_install_script (lines 254-272), post-dedent. -/
def build_choco_install_script (windows_asset : ReleaseAsset) : String :=
  "$ErrorActionPreference = \x27Stop\x27\n$packageName = \x27zagel\x27\n$toolsDir = Split-Path -Parent $MyInvocation.MyCommand.Definition\n\n$packageArgs = @\x7b\n  packageName   = $packageName\n  unzipLocation = $toolsDir\n  url64bit      = \x27" ++
  windows_asset.url ++
  "\x27\n  checksum64    = \x27" ++ windows_asset.sha256 ++
  "\x27\n  checksumType64 = \x27sha256\x27\n\x7d\n\nInstall-ChocolateyZipPackage @packageArgs\nInstall-BinFile -Name \x27zagel\x27 -Path (Join-Path $toolsDir \x27zagel.exe\x27)\n"

/-- Embeds build_choco_uninstall_script (lines 275-276). -/
def build_choco_uninstall_script : String :=
  "Uninstall-BinFile -Name \x27zagel\x27\n"

/-- Embeds build_aur_pkgbuild (lines 279-299), post-dedent. -/
def build_aur_pkgbuild (version : String) (metadata : Metadata)
    (linux_asset : ReleaseAsset) : String :=
  "pkgname=zagel-bin\npkgver=" ++ version ++
  "\npkgrel=1\npkgdesc=\x27" ++ metadata.description ++
  "\x27\narch=(\x27x86_64\x27)\nurl=\x27" ++ metadata.repository ++
  "\x27\nlicense=(\x27" ++ metadata.license ++
  "\x27)\ndepends=(\x27glibc\x27)\nsource=(\x27zagel-v$\x7bpkgver\x7d-x86_64-unknown-linux-gnu.tar.gz::" ++
  linux_asset.url ++
  "\x27)\nsha256sums=(\x27" ++ linux_asset.sha256 ++
  "\x27)\n\npackage() \x7b\n  install -Dm755 \"$\x7bsrcdir\x7d/zagel\" \"$\x7bpkgdir\x7d/usr/bin/zagel\"\n\x7d\n"

/-- Embeds build_packaging_readme (lines 302-322), post-dedent: a fixed
text with no interpolation. -/
def build_packaging_readme : String :=
  "# Packaging\n\nThis directory is the source of truth for package-manager manifests.\n\n- \x60homebrew/zagel.rb\x60: Homebrew formula for a dedicated tap.\n- \x60scoop/zagel.json\x60: Scoop manifest for a dedicated bucket.\n- \x60winget/manifests/...\x60: Winget manifests matching winget-pkgs layout.\n- \x60chocolatey/\x60: Chocolatey nuspec and install scripts.\n- \x60aur/PKGBUILD\x60: AUR \x60zagel-bin\x60 package spec.\n\n## Update flow\n\n1. Publish a GitHub release (\x60vX.Y.Z\x60).\n2. Run \x60packaging-update.yml\x60 (or wait for release trigger).\n3. The workflow opens a PR updating manifests in this directory.\n4. Submit the updated files to each upstream package-manager repository.\n"

/-- Embeds main of release_packaging.py (lines 325-378).  Paths are lists
of components under the output directory; the result is the ordered list
of (path, content) writes performed by the ten write_text calls, or the
error of the first failing step.  All four find_asset resolutions happen
before the first write, as in the source. -/
def packagingMain (cargo_toml : Option CargoToml) (release : ReleaseJson)
    (out_dir : List String) : Except String (List (List String × String)) := do
  let metadata ← read_cargo_metadata cargo_toml
  let (tag, assets) ← load_assets release
  let version := deriveVersion tag
  let linux_asset ← find_asset assets "x86_64-unknown-linux-gnu.tar.gz"
  let windows_asset ← find_asset assets "x86_64-pc-windows-msvc.zip"
  let mac_x64_asset ← find_asset assets "x86_64-apple-darwin.tar.gz"
  let mac_arm_asset ← find_asset assets "aarch64-apple-darwin.tar.gz"
  let winget_base := out_dir ++ ["winget", "manifests", "s", "Sharno", "Zagel", version]
  pure [
    (out_dir ++ ["README.md"], build_packaging_readme),
    (out_dir ++ ["homebrew", "zagel.rb"],
      build_homebrew_formula version metadata linux_asset mac_x64_asset mac_arm_asset),
    (out_dir ++ ["scoop", "zagel.json"],
      build_scoop_manifest version metadata windows_asset),
    (winget_base ++ ["Sharno.Zagel.yaml"], build_winget_version_manifest version),
    (winget_base ++ ["Sharno.Zagel.installer.yaml"],
      build_winget_installer_manifest version windows_asset),
    (winget_base ++ ["Sharno.Zagel.locale.en-US.yaml"],
      build_winget_locale_manifest version metadata),
    (out_dir ++ ["chocolatey", "zagel.nuspec"], build_choco_nuspec version metadata),
    (out_dir ++ ["chocolatey", "tools", "chocolateyinstall.ps1"],
      build_choco_install_script windows_asset),
    (out_dir ++ ["chocolatey", "tools", "chocolateyuninstall.ps1"],
      build_choco_uninstall_script),
    (out_dir ++ ["aur", "PKGBUILD"], build_aur_pkgbuild version metadata linux_asset)]

/-! Concrete example inputs used by witnesses and counterexamples. -/

/-- Minimal valid package table of a Cargo.toml. -/
def exPackage : List (String × String) :=
  [("name", "zagel"), ("description", "A fast REST client"), ("license", "MIT"),
   ("repository", "https://github.com/sharno/zagel")]

/-- Minimal valid Cargo.toml input. -/
def exCargo : Option CargoToml := some ⟨some exPackage⟩

/-- Project metadata of the minimal valid Cargo.toml. -/
def exMetadata : Metadata :=
  ⟨"zagel", "A fast REST client", "MIT", "https://github.com/sharno/zagel"⟩

/-- Linux x86-64 release asset of the example release document. -/
def exLinuxAsset : AssetJson :=
  ⟨"zagel-v1.2.3-x86_64-unknown-linux-gnu.tar.gz",
   "https://example.invalid/linux.tar.gz", some "sha256:aa11"⟩

/-- Windows x86-64 release asset of the example release document. -/
def exWindowsAsset : AssetJson :=
  ⟨"zagel-v1.2.3-x86_64-pc-windows-msvc.zip",
   "https://example.invalid/win.zip", some "sha256:bb22"⟩

/-- macOS x86-64 release asset of the example release document. -/
def exMacX64Asset : AssetJson :=
  ⟨"zagel-v1.2.3-x86_64-apple-darwin.tar.gz",
   "https://example.invalid/macx64.tar.gz", some "sha256:cc33"⟩

/-- macOS ARM64 release asset of the example release document. -/
def exMacArmAsset : AssetJson :=
  ⟨"zagel-v1.2.3-aarch64-apple-darwin.tar.gz",
   "https://example.invalid/macarm.tar.gz", some "sha256:dd44"⟩

/-- Example release document carrying all four required platform assets. -/
def exRelease : ReleaseJson :=
  ⟨"v1.2.3", [exLinuxAsset, exWindowsAsset, exMacX64Asset, exMacArmAsset]⟩

/-- Example release document missing the macOS ARM64 asset. -/
def exReleaseNoArm : ReleaseJson :=
  ⟨"v1.2.3", [exLinuxAsset, exWindowsAsset, exMacX64Asset]⟩

/-- Two resolved assets both ending in the Linux x86-64 name ending. -/
def exTwoLinux : List ReleaseAsset :=
  [⟨"zagel-v1.2.3-x86_64-unknown-linux-gnu.tar.gz", "https://example.invalid/a", "aa11"⟩,
   ⟨"alt-x86_64-unknown-linux-gnu.tar.gz", "https://example.invalid/b", "ee55"⟩]

/-- Resolved Windows asset whose digest value contains a quote. -/
def exQuoteAsset : ReleaseAsset :=
  ⟨"zagel-v1.2.3-x86_64-pc-windows-msvc.zip", "https://example.invalid/win.zip", "a\"b"⟩

/-- Resolved form of the example Linux asset. -/
def exLinuxRA : ReleaseAsset :=
  ⟨"zagel-v1.2.3-x86_64-unknown-linux-gnu.tar.gz",
   "https://example.invalid/linux.tar.gz", "aa11"⟩

/-- Resolved form of the example Windows asset. -/
def exWindowsRA : ReleaseAsset :=
  ⟨"zagel-v1.2.3-x86_64-pc-windows-msvc.zip",
   "https://example.invalid/win.zip", "bb22"⟩

/-- Resolved form of the example macOS x86-64 asset. -/
def exMacX64RA : ReleaseAsset :=
  ⟨"zagel-v1.2.3-x86_64-apple-darwin.tar.gz",
   "https://example.invalid/macx64.tar.gz", "cc33"⟩

/-- Resolved form of the example macOS ARM64 asset. -/
def exMacArmRA : ReleaseAsset :=
  ⟨"zagel-v1.2.3-aarch64-apple-darwin.tar.gz",
   "https://example.invalid/macarm.tar.gz", "dd44"⟩

/-- Release document whose only asset has a digest without the sha256:
marker. -/
def exBadRelease : ReleaseJson :=
  ⟨"v1.0", [⟨"a.zip", "https://example.invalid/a.zip", some "md5:xx"⟩]⟩

/-- Example directory listing with two regular files, names unsorted. -/
def exEntries : List DirEntry :=
  [⟨"b.tar.gz", true, [1, 2]⟩, ⟨"a.zip", true, [3]⟩]

/-- The same listing in a different order. -/
def exEntriesPerm : List DirEntry :=
  [⟨"a.zip", true, [3]⟩, ⟨"b.tar.gz", true, [1, 2]⟩]

/-! Support lemmas about the digest computation. -/

theorem hexDigit_mem (n : Nat) : hexDigit n ∈ hexDigits := by
  have h : n % 16 < hexDigits.length := by
    have h16 : n % 16 < 16 := Nat.mod_lt _ (by omega)
    have hlen : hexDigits.length = 16 := rfl
    omega
  rw [hexDigit, List.getD_eq_getElem _ _ h]
  exact List.getElem_mem h

theorem length_flatMap_byteHex (l : List Nat) :
    (l.flatMap byteHex).length = 2 * l.length := by
  induction l with
  | nil => rfl
  | cons a t ih =>
    simp only [List.flatMap_cons, List.length_append, List.length_cons, ih]
    have hb : (byteHex a).length = 2 := rfl
    omega

theorem length_beBytes (count n : Nat) : (beBytes count n).length = count := by
  simp [beBytes]

theorem sha256Bytes_length (msg : List Nat) : (sha256Bytes msg).length = 32 := by
  simp [sha256Bytes, length_beBytes]

theorem sha256Hex_length (msg : List Nat) : (sha256Hex msg).length = 64 := by
  have h := length_flatMap_byteHex (sha256Bytes msg)
  rw [sha256Bytes_length] at h
  simpa [sha256Hex, String.length] using h

theorem sha256Hex_mem_hexDigits (msg : List Nat) :
    ∀ c ∈ (sha256Hex msg).data, c ∈ hexDigits := by
  intro c hc
  simp only [sha256Hex] at hc
  rcases List.mem_flatMap.mp hc with ⟨b, _, hb⟩
  simp only [byteHex, List.mem_cons, List.not_mem_nil, or_false] at hb
  rcases hb with h | h <;> subst h <;> exact hexDigit_mem _

theorem chunksOf_flatten {α : Type} (size : Nat) (h : 1 ≤ size) (l : List α) :
    (chunksOf size l).flatten = l := by
  rw [chunksOf]
  split
  · next hcond =>
      rcases hcond with hs | hl
      · omega
      · simp [List.length_eq_zero.mp hl]
  · next hcond =>
      push_neg at hcond
      have ih := chunksOf_flatten size h (l.drop size)
      simp only [List.flatten_cons, ih]
      exact List.take_append_drop size l
termination_by l.length
decreasing_by
  simp only [List.length_drop]
  omega

theorem foldl_hasherUpdate (chunks : List (List Nat)) (acc : List Nat) :
    chunks.foldl hasherUpdate acc = acc ++ chunks.flatten := by
  induction chunks generalizing acc with
  | nil => simp
  | cons c t ih => simp [hasherUpdate, ih]

theorem sha256ChunkedHex_eq (size : Nat) (h : 1 ≤ size) (content : List Nat) :
    sha256ChunkedHex size content = sha256Hex content := by
  rw [sha256ChunkedHex, hasherHexdigest, foldl_hasherUpdate,
    chunksOf_flatten size h, List.nil_append]

theorem sha256_for_file_eq (content : List Nat) :
    sha256_for_file content = sha256Hex content :=
  sha256ChunkedHex_eq 1048576 (by omega) content

/-- C8: for every file content, the digest of the chunked computation (at
the source's read size, and at any positive read size) equals the digest
of the whole content hashed at once, so it is stable across runs and
independent of the internally used chunk size; the result is a 64-character
string of lowercase hexadecimal digits. -/
theorem digest_chunking_law (content : List Nat) (size : Nat) (h : 1 ≤ size) :
    sha256ChunkedHex size content = sha256Hex content ∧
    sha256_for_file content = sha256Hex content ∧
    (sha256_for_file content).length = 64 ∧
    ∀ c ∈ (sha256_for_file content).data, c ∈ hexDigits := by
  refine ⟨sha256ChunkedHex_eq size h content, sha256_for_file_eq content, ?_, ?_⟩
  · rw [sha256_for_file_eq]; exact sha256Hex_length content
  · rw [sha256_for_file_eq]; exact sha256Hex_mem_hexDigits content

/-- Witness for C8 at a concrete content and chunk size. -/
theorem digest_chunking_law_witness :
    sha256ChunkedHex 3 [0, 255, 17] = sha256Hex [0, 255, 17] ∧
    sha256_for_file [0, 255, 17] = sha256Hex [0, 255, 17] ∧
    (sha256_for_file [0, 255, 17]).length = 64 ∧
    ∀ c ∈ (sha256_for_file [0, 255, 17]).data, c ∈ hexDigits :=
  digest_chunking_law [0, 255, 17] 3 (by omega)

/-! Support lemmas about the checksum generator. -/

theorem byName_trans : ∀ a b c : DirEntry,
    byName a b = true → byName b c = true → byName a c = true := by
  intro a b c hab hbc
  simp only [byName, decide_eq_true_eq] at *
  exact le_trans hab hbc

theorem byName_total : ∀ a b : DirEntry, (byName a b || byName b a) = true := by
  intro a b
  simp only [byName, Bool.or_eq_true, decide_eq_true_eq]
  exact le_total _ _

theorem checksums_run_ok (dist_dir : String) (entries : List DirEntry) (outName : String)
    (h : 1 ≤ (regularFiles entries outName).length) :
    checksumsRun dist_dir true true entries outName =
      .ok (String.intercalate "\n"
        (((regularFiles entries outName).mergeSort byName).map checksumLine) ++ "\n") := by
  have hp := List.mergeSort_perm (regularFiles entries outName) byName
  have hlen := hp.length_eq
  have hne : ((regularFiles entries outName).mergeSort byName).isEmpty = false := by
    rcases hm : (regularFiles entries outName).mergeSort byName with _ | ⟨a, t⟩
    · rw [hm] at hlen; simp at hlen; omega
    · rfl
  simp only [checksumsRun, Bool.not_true, Bool.or_self, Bool.false_or, hne,
    Bool.false_eq_true, if_false]

theorem fsRead_writeText (fs : List (String × String)) (path content : String) :
    fsRead (writeText fs path content) path = some content := by
  induction fs with
  | nil => simp [fsRead, writeText]
  | cons e t ih =>
    by_cases he : e.1 = path
    · simp only [fsRead, writeText] at ih ⊢
      simp [he, ih]
    · simp only [fsRead, writeText] at ih ⊢
      simp [he, List.find?, ih]

/-- C2: on an existing directory holding at least one regular file other
than the output file, the generator succeeds and the manifest text is the
newline-join of one line per such file plus a single trailing newline;
lines are ordered ascending by filename (covering all the files, as a
permutation), and each line is a 64-character lowercase-hexadecimal digest
of that file's content, two spaces, and the filename; the write overwrites
whatever the output path previously held. -/
theorem checksum_manifest_format (dist_dir out_path : String) (entries : List DirEntry)
    (h : 1 ≤ (regularFiles entries (pathName out_path)).length) :
    ∃ (pairs : List (String × String)) (text : String),
      text = String.intercalate "\n" (pairs.map (fun p => p.1 ++ "  " ++ p.2)) ++ "\n" ∧
      checksumsRun dist_dir true true entries (pathName out_path) = .ok text ∧
      pairs.length = (regularFiles entries (pathName out_path)).length ∧
      List.Pairwise (fun a b : String × String => a.2 ≤ b.2) pairs ∧
      List.Perm (pairs.map Prod.snd)
        ((regularFiles entries (pathName out_path)).map DirEntry.name) ∧
      (∀ p ∈ pairs, p.1.length = 64 ∧ (∀ c ∈ p.1.data, c ∈ hexDigits) ∧
        ∃ e ∈ regularFiles entries (pathName out_path),
          e.name = p.2 ∧ p.1 = sha256Hex e.content) ∧
      ∀ fs, checksumsMain dist_dir true true entries out_path fs =
          .ok (writeText fs out_path text) ∧
        fsRead (writeText fs out_path text) out_path = some text := by
  set files := (regularFiles entries (pathName out_path)).mergeSort byName with hfiles
  have hp : List.Perm files (regularFiles entries (pathName out_path)) :=
    List.mergeSort_perm _ _
  refine ⟨files.map (fun e => (sha256_for_file e.content, e.name)), _, rfl, ?_, ?_, ?_, ?_, ?_, ?_⟩
  · have hmap : (files.map (fun e => (sha256_for_file e.content, e.name))).map
        (fun p => p.1 ++ "  " ++ p.2) = files.map checksumLine := by
      rw [List.map_map]; rfl
    rw [hmap]
    exact checksums_run_ok dist_dir entries (pathName out_path) h
  · rw [List.length_map]; exact hp.length_eq
  · have hs := List.sorted_mergeSort byName_trans byName_total
      (regularFiles entries (pathName out_path))
    refine List.pairwise_map.mpr (hs.imp ?_)
    intro a b hab
    simpa [byName] using hab
  · have : (files.map (fun e => (sha256_for_file e.content, e.name))).map Prod.snd =
        files.map DirEntry.name := by rw [List.map_map]; rfl
    rw [this]
    exact hp.map DirEntry.name
  · intro p hp2
    rcases List.mem_map.mp hp2 with ⟨e, he, rfl⟩
    refine ⟨?_, ?_, e, hp.subset he, rfl, sha256_for_file_eq e.content⟩
    · rw [sha256_for_file_eq]; exact sha256Hex_length e.content
    · rw [sha256_for_file_eq]; exact sha256Hex_mem_hexDigits e.content
  · intro fs
    have hmap : (files.map (fun e => (sha256_for_file e.content, e.name))).map
        (fun p => p.1 ++ "  " ++ p.2) = files.map checksumLine := by
      rw [List.map_map]; rfl
    have hrun := checksums_run_ok dist_dir entries (pathName out_path) h
    constructor
    · rw [hmap]
      simp only [checksumsMain, hrun, hfiles]
      rfl
    · exact fsRead_writeText fs out_path _

/-- Witness for C2 at a concrete directory listing. -/
theorem checksum_manifest_format_witness :
    ∃ (pairs : List (String × String)) (text : String),
      text = String.intercalate "\n" (pairs.map (fun p => p.1 ++ "  " ++ p.2)) ++ "\n" ∧
      checksumsRun "dist" true true exEntries (pathName "SHA256SUMS") = .ok text ∧
      pairs.length = (regularFiles exEntries (pathName "SHA256SUMS")).length ∧
      List.Pairwise (fun a b : String × String => a.2 ≤ b.2) pairs ∧
      List.Perm (pairs.map Prod.snd)
        ((regularFiles exEntries (pathName "SHA256SUMS")).map DirEntry.name) ∧
      (∀ p ∈ pairs, p.1.length = 64 ∧ (∀ c ∈ p.1.data, c ∈ hexDigits) ∧
        ∃ e ∈ regularFiles exEntries (pathName "SHA256SUMS"),
          e.name = p.2 ∧ p.1 = sha256Hex e.content) ∧
      ∀ fs, checksumsMain "dist" true true exEntries "SHA256SUMS" fs =
          .ok (writeText fs "SHA256SUMS" text) ∧
        fsRead (writeText fs "SHA256SUMS" text) "SHA256SUMS" = some text :=
  checksum_manifest_format "dist" "SHA256SUMS" exEntries (by decide)

/-- C7: a missing or non-directory input path raises the configuration
error, and a directory with no regular files (after excluding the output
file by name) raises the no-artifacts error; in both cases no output file
is written. -/
theorem checksum_input_validation (dist_dir out_path : String)
    (distDirExists distIsDir : Bool) (entries : List DirEntry) :
    (distDirExists = false ∨ distIsDir = false →
      checksumsRun dist_dir distDirExists distIsDir entries (pathName out_path) =
        .error ("dist directory does not exist: " ++ dist_dir) ∧
      ∀ fs fs', checksumsMain dist_dir distDirExists distIsDir entries out_path fs ≠
        .ok fs') ∧
    (regularFiles entries (pathName out_path) = [] →
      checksumsRun dist_dir true true entries (pathName out_path) =
        .error ("no release artifacts found in " ++ dist_dir) ∧
      ∀ fs fs', checksumsMain dist_dir true true entries out_path fs ≠ .ok fs') := by
  constructor
  · intro hcond
    have hrun : checksumsRun dist_dir distDirExists distIsDir entries (pathName out_path) =
        .error ("dist directory does not exist: " ++ dist_dir) := by
      rcases hcond with h | h <;> subst h <;> simp [checksumsRun]
    refine ⟨hrun, ?_⟩
    intro fs fs' hok
    simp only [checksumsMain, hrun] at hok
    exact absurd hok (by simp [Bind.bind, Except.bind])
  · intro hempty
    have hrun : checksumsRun dist_dir true true entries (pathName out_path) =
        .error ("no release artifacts found in " ++ dist_dir) := by
      simp [checksumsRun, hempty]
    refine ⟨hrun, ?_⟩
    intro fs fs' hok
    simp only [checksumsMain, hrun] at hok
    exact absurd hok (by simp [Bind.bind, Except.bind])

/-- Witness for C7 at concrete failing inputs. -/
theorem checksum_input_validation_witness :
    (checksumsRun "dist" false true exEntries (pathName "SHA256SUMS") =
      .error ("dist directory does not exist: " ++ "dist") ∧
     ∀ fs fs', checksumsMain "dist" false true exEntries "SHA256SUMS" fs ≠ .ok fs') ∧
    (checksumsRun "dist" true true [] (pathName "SHA256SUMS") =
      .error ("no release artifacts found in " ++ "dist") ∧
     ∀ fs fs', checksumsMain "dist" true true [] "SHA256SUMS" fs ≠ .ok fs') :=
  ⟨(checksum_input_validation "dist" "SHA256SUMS" false true exEntries).1 (Or.inl rfl),
   (checksum_input_validation "dist" "SHA256SUMS" true true []).2 rfl⟩

theorem eq_of_perm_of_pairwise_lt (l₁ : List DirEntry) :
    ∀ l₂ : List DirEntry, List.Perm l₁ l₂ →
    List.Pairwise (fun a b => a.name < b.name) l₁ →
    List.Pairwise (fun a b => a.name < b.name) l₂ → l₁ = l₂ := by
  induction l₁ with
  | nil =>
    intro l₂ p _ _
    exact p.nil_eq
  | cons a t ih =>
    intro l₂ p s₁ s₂
    cases l₂ with
    | nil => exact absurd p.symm.nil_eq (by simp)
    | cons b u =>
      rcases List.pairwise_cons.mp s₁ with ⟨ha, st⟩
      rcases List.pairwise_cons.mp s₂ with ⟨hb, su⟩
      have hab : a = b := by
        have hma : a ∈ b :: u := p.subset (List.mem_cons_self a t)
        have hmb : b ∈ a :: t := p.symm.subset (List.mem_cons_self b u)
        rcases List.mem_cons.mp hma with h | h
        · exact h
        · rcases List.mem_cons.mp hmb with h2 | h2
          · exact h2.symm
          · exact absurd (ha b h2) (lt_asymm (hb a h))
      subst hab
      rw [ih u p.cons_inv st su]

theorem pairwise_lt_of_le_nodup (l : List DirEntry)
    (hle : List.Pairwise (fun a b => byName a b = true) l)
    (hn : (l.map DirEntry.name).Nodup) :
    List.Pairwise (fun a b => a.name < b.name) l := by
  have hne : List.Pairwise (fun a b : DirEntry => a.name ≠ b.name) l :=
    List.pairwise_map.mp hn
  refine (hle.and hne).imp ?_
  intro a b hab
  have h1 : a.name ≤ b.name := by simpa [byName] using hab.1
  exact lt_of_le_of_ne h1 hab.2

theorem mergeSort_eq_of_perm (l₁ l₂ : List DirEntry)
    (hp : List.Perm l₁ l₂) (hn : (l₁.map DirEntry.name).Nodup) :
    l₁.mergeSort byName = l₂.mergeSort byName := by
  have hn₂ : (l₂.map DirEntry.name).Nodup := ((hp.map DirEntry.name).nodup_iff).mp hn
  have hm₁ : ((l₁.mergeSort byName).map DirEntry.name).Nodup :=
    (((List.mergeSort_perm l₁ byName).map DirEntry.name).nodup_iff).mpr hn
  have hm₂ : ((l₂.mergeSort byName).map DirEntry.name).Nodup :=
    (((List.mergeSort_perm l₂ byName).map DirEntry.name).nodup_iff).mpr hn₂
  refine eq_of_perm_of_pairwise_lt _ _ ?_ ?_ ?_
  · exact (List.mergeSort_perm l₁ byName).trans
      (hp.trans (List.mergeSort_perm l₂ byName).symm)
  · exact pairwise_lt_of_le_nodup _ (List.sorted_mergeSort byName_trans byName_total l₁) hm₁
  · exact pairwise_lt_of_le_nodup _ (List.sorted_mergeSort byName_trans byName_total l₂) hm₂

/-- C9: each script is deterministic.  The checksum generator's output is a
pure function of the directory contents: any two listing orders of the same
directory (a permutation; real directory listings have pairwise distinct
names) give identical results, the listing being explicitly sorted before
use, both for the manifest text and for the written filesystem.  The
packaging generator is a pure function of its parsed inputs, so two runs on
equal inputs coincide definitionally. -/
theorem scripts_deterministic (dist_dir out_path : String)
    (distDirExists distIsDir : Bool) (e₁ e₂ : List DirEntry)
    (hp : List.Perm e₁ e₂) (hn : (e₁.map DirEntry.name).Nodup) :
    checksumsRun dist_dir distDirExists distIsDir e₁ (pathName out_path) =
      checksumsRun dist_dir distDirExists distIsDir e₂ (pathName out_path) ∧
    (∀ fs, checksumsMain dist_dir distDirExists distIsDir e₁ out_path fs =
      checksumsMain dist_dir distDirExists distIsDir e₂ out_path fs) ∧
    ∀ (cargo_toml : Option CargoToml) (release : ReleaseJson) (out_dir : List String),
      packagingMain cargo_toml release out_dir = packagingMain cargo_toml release out_dir := by
  have hfp : List.Perm (regularFiles e₁ (pathName out_path))
      (regularFiles e₂ (pathName out_path)) := hp.filter _
  have hfn : ((regularFiles e₁ (pathName out_path)).map DirEntry.name).Nodup :=
    ((List.filter_sublist e₁).map DirEntry.name).nodup hn
  have hms : (regularFiles e₁ (pathName out_path)).mergeSort byName =
      (regularFiles e₂ (pathName out_path)).mergeSort byName :=
    mergeSort_eq_of_perm _ _ hfp hfn
  have hrun : checksumsRun dist_dir distDirExists distIsDir e₁ (pathName out_path) =
      checksumsRun dist_dir distDirExists distIsDir e₂ (pathName out_path) := by
    simp only [checksumsRun, hms]
  exact ⟨hrun, fun fs => by simp only [checksumsMain, hrun], fun _ _ _ => rfl⟩

/-- Witness for C9 at a concrete pair of listing orders. -/
theorem scripts_deterministic_witness :
    checksumsRun "dist" true true exEntries (pathName "SHA256SUMS") =
      checksumsRun "dist" true true exEntriesPerm (pathName "SHA256SUMS") ∧
    (∀ fs, checksumsMain "dist" true true exEntries "SHA256SUMS" fs =
      checksumsMain "dist" true true exEntriesPerm "SHA256SUMS" fs) ∧
    ∀ (cargo_toml : Option CargoToml) (release : ReleaseJson) (out_dir : List String),
      packagingMain cargo_toml release out_dir = packagingMain cargo_toml release out_dir :=
  scripts_deterministic "dist" "SHA256SUMS" true true exEntries exEntriesPerm
    (by decide) (by decide)

/-! Theorems about the packaging generator's input handling. -/

/-- C6: the derived version is the tag with one leading v removed when the
tag starts with v, and the tag unchanged otherwise. -/
theorem version_derivation :
    deriveVersion "v1.2.3" = "1.2.3" ∧ deriveVersion "1.2.3" = "1.2.3" ∧
    ∀ tag : String,
      (∀ rest : List Char, tag.data = 'v' :: rest → (deriveVersion tag).data = rest) ∧
      ((∀ rest : List Char, tag.data ≠ 'v' :: rest) → deriveVersion tag = tag) := by
  refine ⟨by decide, by decide, ?_⟩
  intro tag
  have hv : ("v" : String).data = ['v'] := rfl
  constructor
  · intro rest hr
    have hs : startswith tag "v" = true := by
      simp [startswith, hv, hr, List.isPrefixOf]
    simp [deriveVersion, hs, strDrop, hr]
  · intro hne
    have hs : startswith tag "v" = false := by
      rcases htag : tag.data with _ | ⟨c, cs⟩
      · simp [startswith, htag, hv, List.isPrefixOf]
      · by_cases hc : c = 'v'
        · exact absurd (by rw [htag, hc]) (hne cs)
        · simp [startswith, htag, hv, List.isPrefixOf]
          exact fun h => hc h.symm
    simp [deriveVersion, hs]

/-- Witness for C6 at a concrete tag with the v marker. -/
theorem version_derivation_witness : (deriveVersion "v9.8").data = ['9', '.', '8'] :=
  ((version_derivation.2.2 "v9.8").1 ['9', '.', '8']) rfl

theorem loadAssetList_error (l : List AssetJson)
    (h : ∃ a ∈ l, startswith (a.digest.getD "") "sha256:" = false) :
    ∃ bad ∈ l, startswith (bad.digest.getD "") "sha256:" = false ∧
      loadAssetList l =
        .error ("asset " ++ bad.name ++ " is missing a sha256 digest") := by
  induction l with
  | nil => simp at h
  | cons a t ih =>
    by_cases ha : startswith (a.digest.getD "") "sha256:" = false
    · refine ⟨a, List.mem_cons_self a t, ha, ?_⟩
      simp [loadAssetList, parse_sha256, ha, Bind.bind, Except.bind]
    · rcases h with ⟨x, hx, hxf⟩
      rcases List.mem_cons.mp hx with rfl | hxt
      · exact absurd hxf ha
      · rcases ih ⟨x, hxt, hxf⟩ with ⟨bad, hb, hbf, hberr⟩
        refine ⟨bad, List.mem_cons.mpr (Or.inr hb), hbf, ?_⟩
        have ha' : startswith (a.digest.getD "") "sha256:" = true := by
          rcases Bool.eq_false_or_eq_true (startswith (a.digest.getD "") "sha256:") with
            h1 | h1
          · exact h1
          · exact absurd h1 ha
        simp [loadAssetList, parse_sha256, ha', hberr, Bind.bind, Except.bind]

/-- C4: a release asset is rejected by digest parsing exactly when its
digest string (the empty string when absent) does not begin with the
sha256: marker; acceptance yields the remainder after the marker, and a
rejection is an error naming the asset that aborts the entire load. -/
theorem digest_rejection_iff :
    ∀ digest asset_name : String,
      ((∃ out, parse_sha256 digest asset_name = .ok out) ↔
        startswith digest "sha256:" = true) ∧
      (startswith digest "sha256:" = false →
        parse_sha256 digest asset_name =
          .error ("asset " ++ asset_name ++ " is missing a sha256 digest")) ∧
      ∀ payload : ReleaseJson,
        (∃ a ∈ payload.assets, startswith (a.digest.getD "") "sha256:" = false) →
        ∃ bad ∈ payload.assets,
          startswith (bad.digest.getD "") "sha256:" = false ∧
          load_assets payload =
            .error ("asset " ++ bad.name ++ " is missing a sha256 digest") := by
  intro digest asset_name
  refine ⟨?_, ?_, ?_⟩
  · constructor
    · rintro ⟨out, hout⟩
      rcases Bool.eq_false_or_eq_true (startswith digest "sha256:") with h | h
      · exact h
      · rw [parse_sha256, h] at hout
        simp at hout
    · intro hs
      exact ⟨strDrop digest 7, by simp [parse_sha256, hs]⟩
  · intro hs
    simp [parse_sha256, hs]
  · intro payload hbad
    rcases loadAssetList_error payload.assets hbad with ⟨bad, hb, hbf, hberr⟩
    exact ⟨bad, hb, hbf, by simp [load_assets, hberr, Bind.bind, Except.bind]⟩

/-- Witness for C4 at a digest carrying the wrong marker. -/
theorem digest_rejection_iff_witness :
    parse_sha256 "md5:xx" "foo.zip" =
      .error ("asset " ++ "foo.zip" ++ " is missing a sha256 digest") ∧
    ∃ bad ∈ exBadRelease.assets,
      startswith (bad.digest.getD "") "sha256:" = false ∧
      load_assets exBadRelease =
        .error ("asset " ++ bad.name ++ " is missing a sha256 digest") :=
  ⟨(digest_rejection_iff "md5:xx" "foo.zip").2.1 rfl,
   (digest_rejection_iff "" "").2.2 exBadRelease ⟨_, List.mem_cons_self _ _, rfl⟩⟩

/-- C5: asset resolution by name ending returns the unique matching asset,
and fails with a not-found error when no asset matches and with an
ambiguity error when more than one does. -/
theorem find_asset_resolution :
    ∀ (assets : List ReleaseAsset) (expected_suffix : String),
      (assets.countP (fun a => endswith a.name expected_suffix) = 0 →
        find_asset assets expected_suffix =
          .error ("could not find release asset ending in \x27" ++
            expected_suffix ++ "\x27")) ∧
      (∀ a ∈ assets, assets.countP (fun x => endswith x.name expected_suffix) = 1 →
        endswith a.name expected_suffix = true →
        find_asset assets expected_suffix = .ok a) ∧
      (2 ≤ assets.countP (fun a => endswith a.name expected_suffix) →
        find_asset assets expected_suffix =
          .error ("found multiple assets ending in \x27" ++
            expected_suffix ++ "\x27")) := by
  intro assets suf
  have hc := List.countP_eq_length_filter (fun a => endswith a.name suf) assets
  refine ⟨?_, ?_, ?_⟩
  · intro h0
    have hnil : assets.filter (fun a => endswith a.name suf) = [] :=
      List.length_eq_zero.mp (by omega)
    simp [find_asset, hnil]
  · intro a hmem h1 hend
    have hamem : a ∈ assets.filter (fun x => endswith x.name suf) :=
      List.mem_filter.mpr ⟨hmem, hend⟩
    rcases hf : assets.filter (fun x => endswith x.name suf) with _ | ⟨b, t⟩
    · rw [hf] at hamem; simp at hamem
    · have hlen : (assets.filter (fun x => endswith x.name suf)).length = 1 := by omega
      rw [hf] at hlen hamem
      have ht : t = [] := by
        simp only [List.length_cons] at hlen
        exact List.length_eq_zero.mp (by omega)
      subst ht
      simp only [List.mem_cons, List.not_mem_nil, or_false] at hamem
      subst hamem
      simp [find_asset, hf]
  · intro h2
    rcases hf : assets.filter (fun x => endswith x.name suf) with _ | ⟨b, t⟩
    · rw [hf] at hc; simp only [List.length_nil] at hc; omega
    · rcases t with _ | ⟨c, t2⟩
      · rw [hf] at hc
        simp only [List.length_cons, List.length_nil] at hc
        omega
      · simp [find_asset, hf]

/-- Witness for C5: two assets ending in the Linux x86-64 ending make
resolution fail with the ambiguity error. -/
theorem find_asset_resolution_witness :
    find_asset exTwoLinux "x86_64-unknown-linux-gnu.tar.gz" =
      .error ("found multiple assets ending in \x27" ++
        "x86_64-unknown-linux-gnu.tar.gz" ++ "\x27") :=
  (find_asset_resolution exTwoLinux "x86_64-unknown-linux-gnu.tar.gz").2.2 (by decide)

/-! Support lemmas about the packaging generator's main and templates. -/

theorem packagingMain_ok (cargo_toml : Option CargoToml) (release : ReleaseJson)
    (out_dir : List String) (md : Metadata) (tag : String)
    (assets : List ReleaseAsset) (la wa xa aa : ReleaseAsset)
    (hc : read_cargo_metadata cargo_toml = .ok md)
    (hl : load_assets release = .ok (tag, assets))
    (h1 : find_asset assets "x86_64-unknown-linux-gnu.tar.gz" = .ok la)
    (h2 : find_asset assets "x86_64-pc-windows-msvc.zip" = .ok wa)
    (h3 : find_asset assets "x86_64-apple-darwin.tar.gz" = .ok xa)
    (h4 : find_asset assets "aarch64-apple-darwin.tar.gz" = .ok aa) :
    packagingMain cargo_toml release out_dir = .ok [
      (out_dir ++ ["README.md"], build_packaging_readme),
      (out_dir ++ ["homebrew", "zagel.rb"],
        build_homebrew_formula (deriveVersion tag) md la xa aa),
      (out_dir ++ ["scoop", "zagel.json"],
        build_scoop_manifest (deriveVersion tag) md wa),
      (out_dir ++ ["winget", "manifests", "s", "Sharno", "Zagel", deriveVersion tag] ++
        ["Sharno.Zagel.yaml"], build_winget_version_manifest (deriveVersion tag)),
      (out_dir ++ ["winget", "manifests", "s", "Sharno", "Zagel", deriveVersion tag] ++
        ["Sharno.Zagel.installer.yaml"],
        build_winget_installer_manifest (deriveVersion tag) wa),
      (out_dir ++ ["winget", "manifests", "s", "Sharno", "Zagel", deriveVersion tag] ++
        ["Sharno.Zagel.locale.en-US.yaml"],
        build_winget_locale_manifest (deriveVersion tag) md),
      (out_dir ++ ["chocolatey", "zagel.nuspec"],
        build_choco_nuspec (deriveVersion tag) md),
      (out_dir ++ ["chocolatey", "tools", "chocolateyinstall.ps1"],
        build_choco_install_script wa),
      (out_dir ++ ["chocolatey", "tools", "chocolateyuninstall.ps1"],
        build_choco_uninstall_script),
      (out_dir ++ ["aur", "PKGBUILD"],
        build_aur_pkgbuild (deriveVersion tag) md la)] := by
  simp [packagingMain, hc, hl, h1, h2, h3, h4, Bind.bind, Except.bind, Pure.pure, Except.pure]

theorem packagingMain_missing_arm (cargo_toml : Option CargoToml)
    (release : ReleaseJson) (out_dir : List String) (md : Metadata) (tag : String)
    (assets : List ReleaseAsset) (la wa xa : ReleaseAsset)
    (hc : read_cargo_metadata cargo_toml = .ok md)
    (hl : load_assets release = .ok (tag, assets))
    (h1 : find_asset assets "x86_64-unknown-linux-gnu.tar.gz" = .ok la)
    (h2 : find_asset assets "x86_64-pc-windows-msvc.zip" = .ok wa)
    (h3 : find_asset assets "x86_64-apple-darwin.tar.gz" = .ok xa)
    (h4 : ∀ a ∈ assets, endswith a.name "aarch64-apple-darwin.tar.gz" = false) :
    packagingMain cargo_toml release out_dir =
      .error ("could not find release asset ending in \x27" ++
        "aarch64-apple-darwin.tar.gz" ++ "\x27") := by
  have hnil : assets.filter (fun a => endswith a.name "aarch64-apple-darwin.tar.gz") =
      [] := by
    rw [List.filter_eq_nil_iff]
    intro a ha
    simp [h4 a ha]
  have hfa : find_asset assets "aarch64-apple-darwin.tar.gz" =
      .error ("could not find release asset ending in \x27" ++
        "aarch64-apple-darwin.tar.gz" ++ "\x27") := by
    simp [find_asset, hnil]
  simp [packagingMain, hc, hl, h1, h2, h3, hfa, Bind.bind, Except.bind, Pure.pure, Except.pure]

theorem isInfix_append_left {α : Type} {m r : List α} (l : List α)
    (h : m <:+: r) : m <:+: l ++ r := by
  rcases h with ⟨s, t, rfl⟩
  exact ⟨l ++ s, t, by simp⟩

theorem isInfix_self_append {α : Type} (m t : List α) : m <:+: m ++ t :=
  ⟨[], t, by simp⟩

/-- C3: when project metadata and assets load successfully, the first
three platform endings resolve uniquely, and no asset's name ends in the
macOS ARM64 ending, the run aborts with the not-found error for that
ending and performs no write: no manifest file of any type is produced
(all four resolutions precede the first write in main). -/
theorem packaging_missing_arm_aborts (cargo_toml : Option CargoToml)
    (release : ReleaseJson) (out_dir : List String) (md : Metadata) (tag : String)
    (assets : List ReleaseAsset) (la wa xa : ReleaseAsset)
    (hc : read_cargo_metadata cargo_toml = .ok md)
    (hl : load_assets release = .ok (tag, assets))
    (h1 : find_asset assets "x86_64-unknown-linux-gnu.tar.gz" = .ok la)
    (h2 : find_asset assets "x86_64-pc-windows-msvc.zip" = .ok wa)
    (h3 : find_asset assets "x86_64-apple-darwin.tar.gz" = .ok xa)
    (h4 : ∀ a ∈ assets, endswith a.name "aarch64-apple-darwin.tar.gz" = false) :
    packagingMain cargo_toml release out_dir =
      .error ("could not find release asset ending in \x27" ++
        "aarch64-apple-darwin.tar.gz" ++ "\x27") ∧
    ∀ outs, packagingMain cargo_toml release out_dir ≠ .ok outs := by
  have h := packagingMain_missing_arm cargo_toml release out_dir md tag assets
    la wa xa hc hl h1 h2 h3 h4
  refine ⟨h, ?_⟩
  intro outs hok
  rw [h] at hok
  exact Except.noConfusion hok

/-- Witness for C3 at a release document missing the macOS ARM64 asset. -/
theorem packaging_missing_arm_aborts_witness :
    packagingMain exCargo exReleaseNoArm ["packaging"] =
      .error ("could not find release asset ending in \x27" ++
        "aarch64-apple-darwin.tar.gz" ++ "\x27") ∧
    ∀ outs, packagingMain exCargo exReleaseNoArm ["packaging"] ≠ .ok outs :=
  packaging_missing_arm_aborts exCargo exReleaseNoArm ["packaging"] exMetadata
    "v1.2.3" [exLinuxRA, exWindowsRA, exMacX64RA] exLinuxRA exWindowsRA exMacX64RA
    rfl rfl rfl rfl rfl (by decide)

/-- C1 (amended): on a minimal valid project manifest and a release
document in which each of the four required platform endings resolves to
exactly one asset, the run succeeds and produces exactly TEN output files
at the documented paths under the output directory; the seven files that
interpolate the version (homebrew formula, scoop manifest, the three
winget manifests, the chocolatey nuspec and the AUR PKGBUILD) each contain
the derived version string verbatim, the scoop manifest whenever the
version needs no JSON escaping (ordinary numeric versions never do).  The
original claim counted nine files and asserted that every output file
contains the version; the README and the two chocolatey PowerShell
scripts interpolate no version, as the counterexample shows. -/
theorem packaging_end_to_end (cargo_toml : Option CargoToml) (release : ReleaseJson)
    (out_dir : List String) (md : Metadata) (tag : String)
    (assets : List ReleaseAsset) (la wa xa aa : ReleaseAsset)
    (hc : read_cargo_metadata cargo_toml = .ok md)
    (hl : load_assets release = .ok (tag, assets))
    (h1 : find_asset assets "x86_64-unknown-linux-gnu.tar.gz" = .ok la)
    (h2 : find_asset assets "x86_64-pc-windows-msvc.zip" = .ok wa)
    (h3 : find_asset assets "x86_64-apple-darwin.tar.gz" = .ok xa)
    (h4 : find_asset assets "aarch64-apple-darwin.tar.gz" = .ok aa)
    (hesc : jsonEscape (deriveVersion tag) = deriveVersion tag) :
    ∃ chb csc cwv cwi cwl cnu cci ccu cpk : String,
      packagingMain cargo_toml release out_dir = .ok [
        (out_dir ++ ["README.md"], build_packaging_readme),
        (out_dir ++ ["homebrew", "zagel.rb"], chb),
        (out_dir ++ ["scoop", "zagel.json"], csc),
        (out_dir ++ ["winget", "manifests", "s", "Sharno", "Zagel",
          deriveVersion tag, "Sharno.Zagel.yaml"], cwv),
        (out_dir ++ ["winget", "manifests", "s", "Sharno", "Zagel",
          deriveVersion tag, "Sharno.Zagel.installer.yaml"], cwi),
        (out_dir ++ ["winget", "manifests", "s", "Sharno", "Zagel",
          deriveVersion tag, "Sharno.Zagel.locale.en-US.yaml"], cwl),
        (out_dir ++ ["chocolatey", "zagel.nuspec"], cnu),
        (out_dir ++ ["chocolatey", "tools", "chocolateyinstall.ps1"], cci),
        (out_dir ++ ["chocolatey", "tools", "chocolateyuninstall.ps1"], ccu),
        (out_dir ++ ["aur", "PKGBUILD"], cpk)] ∧
      (deriveVersion tag).data <:+: chb.data ∧
      (deriveVersion tag).data <:+: csc.data ∧
      (deriveVersion tag).data <:+: cwv.data ∧
      (deriveVersion tag).data <:+: cwi.data ∧
      (deriveVersion tag).data <:+: cwl.data ∧
      (deriveVersion tag).data <:+: cnu.data ∧
      (deriveVersion tag).data <:+: cpk.data := by
  refine ⟨build_homebrew_formula (deriveVersion tag) md la xa aa,
    build_scoop_manifest (deriveVersion tag) md wa,
    build_winget_version_manifest (deriveVersion tag),
    build_winget_installer_manifest (deriveVersion tag) wa,
    build_winget_locale_manifest (deriveVersion tag) md,
    build_choco_nuspec (deriveVersion tag) md,
    build_choco_install_script wa,
    build_choco_uninstall_script,
    build_aur_pkgbuild (deriveVersion tag) md la,
    ?_, ?_, ?_, ?_, ?_, ?_, ?_, ?_⟩
  · have hmain := packagingMain_ok cargo_toml release out_dir md tag assets
      la wa xa aa hc hl h1 h2 h3 h4
    simpa [List.append_assoc] using hmain
  · simp only [build_homebrew_formula, String.data_append, List.append_assoc]
    repeat
      first
      | exact isInfix_self_append _ _
      | apply isInfix_append_left
  · simp only [build_scoop_manifest, hesc, String.data_append, List.append_assoc]
    repeat
      first
      | exact isInfix_self_append _ _
      | apply isInfix_append_left
  · simp only [build_winget_version_manifest, String.data_append, List.append_assoc]
    repeat
      first
      | exact isInfix_self_append _ _
      | apply isInfix_append_left
  · simp only [build_winget_installer_manifest, String.data_append, List.append_assoc]
    repeat
      first
      | exact isInfix_self_append _ _
      | apply isInfix_append_left
  · simp only [build_winget_locale_manifest, String.data_append, List.append_assoc]
    repeat
      first
      | exact isInfix_self_append _ _
      | apply isInfix_append_left
  · simp only [build_choco_nuspec, String.data_append, List.append_assoc]
    repeat
      first
      | exact isInfix_self_append _ _
      | apply isInfix_append_left
  · simp only [build_aur_pkgbuild, String.data_append, List.append_assoc]
    repeat
      first
      | exact isInfix_self_append _ _
      | apply isInfix_append_left

/-- Witness for C1 (amended) at the minimal valid concrete inputs. -/
theorem packaging_end_to_end_witness :
    ∃ chb csc cwv cwi cwl cnu cci ccu cpk : String,
      packagingMain exCargo exRelease ["packaging"] = .ok [
        (["packaging"] ++ ["README.md"], build_packaging_readme),
        (["packaging"] ++ ["homebrew", "zagel.rb"], chb),
        (["packaging"] ++ ["scoop", "zagel.json"], csc),
        (["packaging"] ++ ["winget", "manifests", "s", "Sharno", "Zagel",
          deriveVersion "v1.2.3", "Sharno.Zagel.yaml"], cwv),
        (["packaging"] ++ ["winget", "manifests", "s", "Sharno", "Zagel",
          deriveVersion "v1.2.3", "Sharno.Zagel.installer.yaml"], cwi),
        (["packaging"] ++ ["winget", "manifests", "s", "Sharno", "Zagel",
          deriveVersion "v1.2.3", "Sharno.Zagel.locale.en-US.yaml"], cwl),
        (["packaging"] ++ ["chocolatey", "zagel.nuspec"], cnu),
        (["packaging"] ++ ["chocolatey", "tools", "chocolateyinstall.ps1"], cci),
        (["packaging"] ++ ["chocolatey", "tools", "chocolateyuninstall.ps1"], ccu),
        (["packaging"] ++ ["aur", "PKGBUILD"], cpk)] ∧
      (deriveVersion "v1.2.3").data <:+: chb.data ∧
      (deriveVersion "v1.2.3").data <:+: csc.data ∧
      (deriveVersion "v1.2.3").data <:+: cwv.data ∧
      (deriveVersion "v1.2.3").data <:+: cwi.data ∧
      (deriveVersion "v1.2.3").data <:+: cwl.data ∧
      (deriveVersion "v1.2.3").data <:+: cnu.data ∧
      (deriveVersion "v1.2.3").data <:+: cpk.data :=
  packaging_end_to_end exCargo exRelease ["packaging"] exMetadata "v1.2.3"
    [exLinuxRA, exWindowsRA, exMacX64RA, exMacArmRA]
    exLinuxRA exWindowsRA exMacX64RA exMacArmRA
    rfl rfl rfl rfl rfl rfl (by decide)

/-- C1 counterexample: at the minimal valid inputs the run succeeds but
produces ten output files, not nine, and one of them (the README, whose
text is static) does not contain the derived version 1.2.3. -/
theorem packaging_nine_files_counterexample :
    ∃ outs, packagingMain exCargo exRelease ["packaging"] = .ok outs ∧
      outs.length ≠ 9 ∧
      ∃ o ∈ outs, ¬ (("1.2.3" : String).data <:+: o.2.data) := by
  have hmain := packagingMain_ok exCargo exRelease ["packaging"] exMetadata "v1.2.3"
    [exLinuxRA, exWindowsRA, exMacX64RA, exMacArmRA]
    exLinuxRA exWindowsRA exMacX64RA exMacArmRA
    rfl rfl rfl rfl rfl rfl
  refine ⟨_, hmain, by simp, ?_⟩
  refine ⟨(["packaging"] ++ ["README.md"], build_packaging_readme),
    List.mem_cons_self _ _, ?_⟩
  decide

/-- C10 (amended): digest parsing returns exactly the remainder after the
sha256: marker with no further validation, so the remainder may be empty
or non-hexadecimal of any length; the raw value is embedded verbatim into
the raw-text templates that reference the asset (homebrew formula, winget
installer manifest, chocolatey install script, AUR PKGBUILD), while the
scoop manifest embeds it JSON-escaped by json.dumps, hence verbatim
exactly when escaping leaves the value unchanged.  The original claim's
"embedded verbatim into every rendered manifest that references the
asset" is refuted by the counterexample below at a digest containing a
quote. -/
theorem digest_unvalidated_embedding :
    (∀ s asset_name : String, parse_sha256 ("sha256:" ++ s) asset_name = .ok s) ∧
    ∀ (v : String) (md : Metadata) (la wa xa aa : ReleaseAsset),
      aa.sha256.data <:+: (build_homebrew_formula v md la xa aa).data ∧
      wa.sha256.data <:+: (build_winget_installer_manifest v wa).data ∧
      wa.sha256.data <:+: (build_choco_install_script wa).data ∧
      la.sha256.data <:+: (build_aur_pkgbuild v md la).data ∧
      (jsonEscape wa.sha256).data <:+: (build_scoop_manifest v md wa).data := by
  constructor
  · intro s asset_name
    have hs : startswith ("sha256:" ++ s) "sha256:" = true := by
      rw [startswith, String.data_append, List.isPrefixOf_iff_prefix]
      exact List.prefix_append _ _
    rw [parse_sha256, hs, if_pos rfl]
    congr 1
  · intro v md la wa xa aa
    refine ⟨?_, ?_, ?_, ?_, ?_⟩
    · simp only [build_homebrew_formula, String.data_append, List.append_assoc]
      repeat
        first
        | exact isInfix_self_append _ _
        | apply isInfix_append_left
    · simp only [build_winget_installer_manifest, String.data_append, List.append_assoc]
      repeat
        first
        | exact isInfix_self_append _ _
        | apply isInfix_append_left
    · simp only [build_choco_install_script, String.data_append, List.append_assoc]
      repeat
        first
        | exact isInfix_self_append _ _
        | apply isInfix_append_left
    · simp only [build_aur_pkgbuild, String.data_append, List.append_assoc]
      repeat
        first
        | exact isInfix_self_append _ _
        | apply isInfix_append_left
    · simp only [build_scoop_manifest, String.data_append, List.append_assoc]
      repeat
        first
        | exact isInfix_self_append _ _
        | apply isInfix_append_left

/-- C10 counterexample: the digest remainder a-quote-b parses unvalidated,
but the scoop manifest renders it JSON-escaped, so the raw value is not a
substring of every manifest that references the asset. -/
theorem digest_verbatim_counterexample :
    parse_sha256 "sha256:a\"b" "zagel-v1.2.3-x86_64-pc-windows-msvc.zip" =
      .ok "a\"b" ∧
    ¬ (("a\"b" : String).data <:+:
        (build_scoop_manifest "1.2.3" exMetadata exQuoteAsset).data) := by
  constructor
  · rfl
  · decide

end Zagel
